import Mathlib

/-!
Verification development for the subscription and monitored-item engine of the
freeopcua OPC UA server.  The definitions below are a shallow embedding of
`src/server/internal_subscription.cpp` and
`src/server/subscription_service_internal.cpp`: `std::map` containers become
key-sorted association lists over `Nat` keys, `uint32_t` counters become `Nat`
with an explicit `% 4294967296` wherever the source increments or decrements,
and the two external collaborators (the address space and the `rand()` stream)
become explicit function-valued parameters.  The boost timer loop is modelled
as a step function `tick` plus drivers (`runTimer`, `runOps`) that replay the
asio callback chain and arbitrary interleavings of the public operations.
-/

namespace OpcUa

/-- Protocol status codes used by this engine (section 7 of the spec). -/
inductive StatusCode where
  | Good
  | BadSubscriptionIdInvalid
  | BadMonitoredItemIdInvalid
  | BadNodeAttributesInvalid
  | BadMessageNotAvailable
  deriving DecidableEq, Repr

/-- Attribute identifiers.  Only `EVENT_NOTIFIER` is branched on by the code;
all other attribute codes are carried opaquely. -/
inductive AttributeId where
  | eventNotifier
  | value
  | other (code : Nat)
  deriving DecidableEq, Repr

/-- Node identifiers are modelled as an opaque ordered identifier (`std::map`
over `NodeID` iterates in key order, which `Nat` ordering reproduces). -/
abbrev NodeIdM := Nat

/-- Data values are opaque to this engine. -/
abbrev DataValueM := Nat

/-- `OpcUa::ByteString`: a byte vector. -/
structure ByteString where
  data : List Nat
  deriving DecidableEq, Repr

/-- `OpcUa::QualifiedName` (name, namespace index). -/
structure QualifiedName where
  name : String
  namespaceIndex : Nat
  deriving DecidableEq, Repr

/-- `OpcUa::Variant`, restricted to the payloads this engine stores. -/
inductive Variant where
  | vBytes (b : ByteString)
  | vNodeId (n : NodeIdM)
  | vString (s : String)
  | vNat (n : Nat)
  deriving DecidableEq, Repr

/-- One entry of a `DataChangeNotification`
(`OpcUa::MonitoredItems`: client handle plus sampled value). -/
structure MonitoredItemsNotif where
  clientHandle : Nat
  value : DataValueM
  deriving DecidableEq, Repr

/-- `OpcUa::EventFieldList`: client handle plus projected event fields. -/
structure EventFieldList where
  clientHandle : Nat
  eventFields : List Variant
  deriving DecidableEq, Repr

/-- `OpcUa::DataChangeNotification`. -/
structure DataChangeNotification where
  notification : List MonitoredItemsNotif
  deriving DecidableEq, Repr

/-- `OpcUa::EventNotificationList`. -/
structure EventNotificationList where
  events : List EventFieldList
  deriving DecidableEq, Repr

/-- `OpcUa::NotificationData`: tagged union over the two notification kinds
this engine emits (the status-change slot is reserved but never emitted). -/
inductive NotificationData where
  | dataChange (d : DataChangeNotification)
  | events (e : EventNotificationList)
  deriving DecidableEq, Repr

/-- `OpcUa::PublishResult` with its embedded `NotificationMessage` flattened:
`sequenceId` and `publishTime` are the message's `SequenceID`/`PublishTime`,
`data` is `Message.Data`. -/
structure PublishResult where
  subscriptionId : Nat
  publishTime : Nat
  sequenceId : Nat
  data : List NotificationData
  statuses : List StatusCode
  availableSequenceNumbers : List Nat
  moreNotifications : Bool
  deriving DecidableEq, Repr

/-- `OpcUa::SubscriptionData` as used by `InternalSubscription`. -/
structure SubscriptionData where
  id : Nat
  revisedPublishingInterval : Nat
  revisedLifetimeCount : Nat
  revizedMaxKeepAliveCount : Nat
  deriving DecidableEq, Repr

/-- `OpcUa::SubscriptionAcknowledgement`. -/
structure SubscriptionAcknowledgement where
  subscriptionId : Nat
  sequenceNumber : Nat
  deriving DecidableEq, Repr

/-- `OpcUa::PublishRequest`: the session token from the request header plus
the acknowledgement list. -/
structure PublishRequest where
  sessionAuthenticationToken : NodeIdM
  subscriptionAcknowledgements : List SubscriptionAcknowledgement
  deriving DecidableEq, Repr

/-- `OpcUa::SimpleAttributeOperand` (select clause of an event filter). -/
structure SimpleAttributeOperand where
  attrId : Nat
  browsePath : List QualifiedName
  deriving DecidableEq, Repr

/-- `OpcUa::EventFilter` (only select clauses are evaluated by the code). -/
structure EventFilter where
  selectClauses : List SimpleAttributeOperand
  deriving DecidableEq, Repr

/-- `OpcUa::MonitoringFilter` as consumed here (`Filter.Event`). -/
structure MonitoringFilter where
  event : EventFilter
  deriving DecidableEq, Repr

/-- `OpcUa::AttributeValueID`: the (node, attribute) pair to monitor/read. -/
structure AttributeValueId where
  node : NodeIdM
  attrId : AttributeId
  deriving DecidableEq, Repr

/-- `OpcUa::ReadParameters`. -/
structure ReadParameters where
  attributesToRead : List AttributeValueId
  deriving DecidableEq, Repr

/-- Parameters of one `MonitoredItemRequest` (`Parameters` sub-struct). -/
structure MonitoringParameters where
  clientHandle : Nat
  queueSize : Nat
  filter : MonitoringFilter
  deriving DecidableEq, Repr

/-- `OpcUa::MonitoredItemRequest`. -/
structure MonitoredItemRequest where
  itemToMonitor : AttributeValueId
  mode : Nat
  parameters : MonitoringParameters
  deriving DecidableEq, Repr

/-- `OpcUa::CreateMonitoredItemsResult`. -/
structure CreateMonitoredItemsResult where
  status : StatusCode
  monitoredItemId : Nat
  revisedSamplingInterval : Nat
  revizedQueueSize : Nat
  filter : MonitoringFilter
  deriving DecidableEq, Repr

/-- Modelled from the spec: a default-constructed `CreateMonitoredItemsResult`
(its C++ definition lives in a protocol header outside `src/`); the claims only
ever observe the `Status` field of default-constructed results, the remaining
fields are zero-initialised. -/
def emptyCreateResult : CreateMonitoredItemsResult :=
  { status := StatusCode.Good
    monitoredItemId := 0
    revisedSamplingInterval := 0
    revizedQueueSize := 0
    filter := { event := { selectClauses := [] } } }

/-- `OpcUa::DataMonitoredItems`: the per-item record stored in
`MonitoredItemsMap`. -/
structure DataMonitoredItems where
  parameters : CreateMonitoredItemsResult
  mode : Nat
  clientHandle : Nat
  callbackHandle : Nat
  deriving DecidableEq, Repr

/-- `OpcUa::Event`: the built-in fields read by `GetEventFields`, plus the two
opaque lookups `GetValue(attribute)` and `GetValue(browse_path)` which are
implemented outside this engine. -/
structure Event where
  eventId : ByteString
  eventType : NodeIdM
  sourceNode : NodeIdM
  sourceName : String
  message : String
  severity : Nat
  localTime : Nat
  receiveTime : Nat
  time : Nat
  getValueAttr : Nat → Variant
  getValuePath : List QualifiedName → Variant

/-- The address space collaborator (section 6 of the spec): a synchronous
`Read` and callback registration returning a handle (0 on failure).
`DeleteDataChangeCallback` has no effect on subscription state and is not
modelled. -/
structure AddressSpaceModel where
  read : ReadParameters → List DataValueM
  addDataChangeCallback : NodeIdM → AttributeId → Nat

/-! ### Sorted association lists, the model of `std::map` -/

/-- Lookup in an association list (`std::map::find`). -/
def mapFind? (k : Nat) : List (Nat × α) → Option α
  | [] => none
  | (k', v) :: rest => if k = k' then some v else mapFind? k rest

/-- Key-ordered insert-or-assign (`std::map::operator[] = v`), keeping the
list sorted by key so that iteration order matches `std::map`. -/
def mapInsert (k : Nat) (v : α) : List (Nat × α) → List (Nat × α)
  | [] => [(k, v)]
  | (k', v') :: rest =>
    if k < k' then (k, v) :: (k', v') :: rest
    else if k = k' then (k, v) :: rest
    else (k', v') :: mapInsert k v rest

/-- Erase by key (`std::map::erase(key)`). -/
def mapErase (k : Nat) : List (Nat × α) → List (Nat × α)
  | [] => []
  | (k', v) :: rest => if k = k' then rest else (k', v) :: mapErase k rest

/-! ### InternalSubscription state and operations -/

/-- The mutable state of one `InternalSubscription`
(`internal_subscription.h` members driven by `internal_subscription.cpp`). -/
structure SubState where
  data : SubscriptionData
  currentSession : NodeIdM
  lifeTimeCount : Nat
  startup : Bool
  timerStopped : Bool
  keepAliveCount : Nat
  notificationSequence : Nat
  lastMonitoredItemId : Nat
  monitoredItemsMap : List (Nat × DataMonitoredItems)
  monitoredEvents : List (NodeIdM × Nat)
  monitoredItemsTriggered : List MonitoredItemsNotif
  eventTriggered : List EventFieldList
  notAcknowledgedResults : List PublishResult
  deriving DecidableEq, Repr

/-- Modelled from the spec: the initial member values of `InternalSubscription`
are set by in-class initialisers in `internal_subscription.h`, which is not
part of `src/`.  Per the spec data model: `notification_sequence` starts at 1,
`keep_alive_count` at 0, `startup` is true (forces the first tick to emit),
`timer_stopped` false, `last_monitored_item_id` 0, all queues and maps empty.
`LifeTimeCount` is copied from `data.RevisedLifetimeCount` by the constructor,
which is in `src/`. -/
def initialSubState (d : SubscriptionData) (session : NodeIdM) : SubState :=
  { data := d
    currentSession := session
    lifeTimeCount := d.revisedLifetimeCount
    startup := true
    timerStopped := false
    keepAliveCount := 0
    notificationSequence := 1
    lastMonitoredItemId := 0
    monitoredItemsMap := []
    monitoredEvents := []
    monitoredItemsTriggered := []
    eventTriggered := []
    notAcknowledgedResults := [] }

/-- `InternalSubscription::HasExpired` (internal_subscription.cpp:47-55). -/
def hasExpired (s : SubState) : Bool :=
  s.keepAliveCount > s.lifeTimeCount

/-- `InternalSubscription::HasPublishResult` (internal_subscription.cpp:87-103).
Returns the updated state (the keep-alive counter is bumped, modulo 2^32 as a
`uint32_t`, exactly on the nothing-to-send path) and the boolean answer. -/
def hasPublishResult (s : SubState) : SubState × Bool :=
  if s.startup || !s.monitoredItemsTriggered.isEmpty || !s.eventTriggered.isEmpty then
    (s, true)
  else if s.keepAliveCount > s.data.revizedMaxKeepAliveCount then
    (s, true)
  else
    ({ s with keepAliveCount := (s.keepAliveCount + 1) % 4294967296 }, false)

/-- `InternalSubscription::GetNotificationData` (internal_subscription.cpp:156-166):
drain `MonitoredItemsTriggered` into a `DataChangeNotification`. -/
def getNotificationData (s : SubState) : SubState × NotificationData :=
  ({ s with monitoredItemsTriggered := [] },
   NotificationData.dataChange { notification := s.monitoredItemsTriggered })

/-- `InternalSubscription::PopPublishResult` (internal_subscription.cpp:105-154).
`now` stands for `CurrentDateTime()`.  Mirrors the source statement by
statement: optional data-change block, optional event block, counter resets,
sequence assignment and post-increment (`uint32_t`), available-sequence-number
collection from the old `NotAcknowledgedResults`, insertion of the result, and
the singleton result vector. -/
def popPublishResult (now : Nat) (s : SubState) : SubState × List PublishResult :=
  let result0 : PublishResult :=
    { subscriptionId := s.data.id
      publishTime := now
      sequenceId := 0
      data := []
      statuses := []
      availableSequenceNumbers := []
      moreNotifications := false }
  let step1 : SubState × PublishResult :=
    if !s.monitoredItemsTriggered.isEmpty then
      let g := getNotificationData s
      (g.1, { result0 with data := result0.data ++ [g.2],
                           statuses := result0.statuses ++ [StatusCode.Good] })
    else (s, result0)
  let step2 : SubState × PublishResult :=
    if !step1.1.eventTriggered.isEmpty then
      let notif : EventNotificationList := { events := step1.1.eventTriggered }
      ({ step1.1 with eventTriggered := [] },
       { step1.2 with data := step1.2.data ++ [NotificationData.events notif],
                      statuses := step1.2.statuses ++ [StatusCode.Good] })
    else step1
  let s2 := { step2.1 with keepAliveCount := 0, startup := false }
  let result2 := { step2.2 with sequenceId := s2.notificationSequence }
  let s3 := { s2 with notificationSequence := (s2.notificationSequence + 1) % 4294967296 }
  let result3 := { result2 with moreNotifications := false,
                                availableSequenceNumbers :=
                                  s3.notAcknowledgedResults.map (fun r => r.sequenceId) }
  let s4 := { s3 with notAcknowledgedResults := s3.notAcknowledgedResults ++ [result3] }
  (s4, [result3])

/-- `InternalSubscription::NewAcknowlegment` (internal_subscription.cpp:168-171):
`remove_if` drops every stored result whose sequence id equals the
acknowledged sequence number. -/
def newAcknowlegment (ack : SubscriptionAcknowledgement) (s : SubState) : SubState :=
  { s with notAcknowledgedResults :=
      s.notAcknowledgedResults.filter (fun res => !(ack.sequenceNumber == res.sequenceId)) }

/-- `InternalSubscription::TriggerDataChangeEvent` (internal_subscription.cpp:224-235).
The source indexes `vals[0]` without checking emptiness; an empty read result
is out-of-bounds access (undefined behavior), modelled as `none`. -/
def triggerDataChangeEvent (as : AddressSpaceModel) (s : SubState)
    (monitoreditems : DataMonitoredItems) (attrval : AttributeValueId) : Option SubState :=
  let params : ReadParameters := { attributesToRead := [attrval] }
  match as.read params with
  | [] => none
  | v :: _ =>
    some { s with monitoredItemsTriggered :=
        s.monitoredItemsTriggered ++ [{ clientHandle := monitoreditems.clientHandle, value := v }] }

/-- Tail of `InternalSubscription::CreateMonitoredItem`
(internal_subscription.cpp:206-221), shared by the event and data paths:
fill in the result, store the `DataMonitoredItems` record, and force the
initial data-change notification. -/
def createMonitoredItemCommon (as : AddressSpaceModel) (callbackHandle : Nat) (mid : Nat)
    (s : SubState) (request : MonitoredItemRequest) :
    Option (SubState × CreateMonitoredItemsResult) :=
  let result : CreateMonitoredItemsResult :=
    { emptyCreateResult with
        status := StatusCode.Good
        monitoredItemId := mid
        revisedSamplingInterval := s.data.revisedPublishingInterval
        revizedQueueSize := request.parameters.queueSize
        filter := request.parameters.filter }
  let mdata : DataMonitoredItems :=
    { parameters := result
      mode := request.mode
      clientHandle := request.parameters.clientHandle
      callbackHandle := callbackHandle }
  let s2 := { s with monitoredItemsMap := mapInsert mid mdata s.monitoredItemsMap }
  (triggerDataChangeEvent as s2 mdata request.itemToMonitor).map (fun s3 => (s3, result))

/-- `InternalSubscription::CreateMonitoredItem` (internal_subscription.cpp:174-222).
The id counter is a `uint32_t`: the pre-increment and the rollback decrement
are taken modulo 2^32.  On the data path, a zero callback handle from the
address space rolls the counter back and reports `BadNodeAttributesInvalid`
with no further state change. -/
def createMonitoredItem (as : AddressSpaceModel) (s : SubState)
    (request : MonitoredItemRequest) : Option (SubState × CreateMonitoredItemsResult) :=
  let mid := (s.lastMonitoredItemId + 1) % 4294967296
  let s1 := { s with lastMonitoredItemId := mid }
  if request.itemToMonitor.attrId = AttributeId.eventNotifier then
    let s2 := { s1 with monitoredEvents := mapInsert request.itemToMonitor.node mid s1.monitoredEvents }
    createMonitoredItemCommon as 0 mid s2 request
  else
    let h := as.addDataChangeCallback request.itemToMonitor.node request.itemToMonitor.attrId
    if h = 0 then
      some ({ s1 with lastMonitoredItemId := (s1.lastMonitoredItemId + 4294967295) % 4294967296 },
            { emptyCreateResult with monitoredItemId := mid,
                                     status := StatusCode.BadNodeAttributesInvalid })
    else
      createMonitoredItemCommon as h mid s1 request

/-- The `MonitoredEvents` scan inside `DeleteMonitoredItemsIds`
(internal_subscription.cpp:243-250): iterate in key order, erase the first
entry whose mapped monitored-item id equals the handle, then break. -/
def eraseEventByHandle (handle : Nat) : List (NodeIdM × Nat) → List (NodeIdM × Nat)
  | [] => []
  | (k, v) :: rest => if v = handle then rest else (k, v) :: eraseEventByHandle handle rest

/-- Loop body of `InternalSubscription::DeleteMonitoredItemsIds`
(internal_subscription.cpp:240-265): scrub `MonitoredEvents`, then either
record `BadMonitoredItemIdInvalid` for an unknown handle or erase the item and
record `Good`.  `DeleteDataChangeCallback` only affects the external address
space and is not modelled. -/
def deleteOneItem (acc : SubState × List StatusCode) (handle : Nat) :
    SubState × List StatusCode :=
  let s1 := { acc.1 with monitoredEvents := eraseEventByHandle handle acc.1.monitoredEvents }
  match mapFind? handle s1.monitoredItemsMap with
  | none => (s1, acc.2 ++ [StatusCode.BadMonitoredItemIdInvalid])
  | some _ =>
    ({ s1 with monitoredItemsMap := mapErase handle s1.monitoredItemsMap },
     acc.2 ++ [StatusCode.Good])

/-- `InternalSubscription::DeleteMonitoredItemsIds` (internal_subscription.cpp:237-267). -/
def deleteMonitoredItemsIds (s : SubState) (ids : List Nat) : SubState × List StatusCode :=
  ids.foldl deleteOneItem (s, [])

/-- `InternalSubscription::DataChangeCallback` (internal_subscription.cpp:271-287):
look the item up by the registration-time id; drop the sample if the item has
vanished, otherwise append to the triggered queue. -/
def dataChangeCallback (s : SubState) (mid : Nat) (value : DataValueM) : SubState :=
  match mapFind? mid s.monitoredItemsMap with
  | none => s
  | some mdata =>
    { s with monitoredItemsTriggered :=
        s.monitoredItemsTriggered ++ [{ clientHandle := mdata.clientHandle, value := value }] }

/-- `InternalSubscription::GetEventFields` (internal_subscription.cpp:325-383):
project one value per select clause, dispatching the first browse-path segment
over the built-in event field names. -/
def getEventFields (filter : EventFilter) (event : Event) : List Variant :=
  filter.selectClauses.map (fun sattr =>
    match sattr.browsePath with
    | [] => event.getValueAttr sattr.attrId
    | q :: _ =>
      if q = (⟨"EventID", 0⟩ : QualifiedName) then Variant.vBytes event.eventId
      else if q = (⟨"EventType", 0⟩ : QualifiedName) then Variant.vNodeId event.eventType
      else if q = (⟨"SourceNode", 0⟩ : QualifiedName) then Variant.vNodeId event.sourceNode
      else if q = (⟨"SourceName", 0⟩ : QualifiedName) then Variant.vString event.sourceName
      else if q = (⟨"Message", 0⟩ : QualifiedName) then Variant.vString event.message
      else if q = (⟨"Severity", 0⟩ : QualifiedName) then Variant.vNat event.severity
      else if q = (⟨"LocalTime", 0⟩ : QualifiedName) then Variant.vNat event.localTime
      else if q = (⟨"ReceiveTime", 0⟩ : QualifiedName) then Variant.vNat event.receiveTime
      else if q = (⟨"Time", 0⟩ : QualifiedName) then Variant.vNat event.time
      else event.getValuePath sattr.browsePath)

/-- `InternalSubscription::EnqueueEvent` (internal_subscription.cpp:303-323). -/
def enqueueEvent (s : SubState) (monitoredItemId : Nat) (event : Event) : SubState × Bool :=
  match mapFind? monitoredItemId s.monitoredItemsMap with
  | none => (s, false)
  | some mdata =>
    ({ s with eventTriggered := s.eventTriggered ++
        [{ clientHandle := mdata.clientHandle,
           eventFields := getEventFields mdata.parameters.filter.event event }] }, true)

/-- `InternalSubscription::TriggerEvent` (internal_subscription.cpp:289-301). -/
def subTriggerEvent (s : SubState) (node : NodeIdM) (event : Event) : SubState :=
  match mapFind? node s.monitoredEvents with
  | none => s
  | some mid => (enqueueEvent s mid event).1

/-! ### SubscriptionServiceInternal -/

/-- Credit-map mutation of `SubscriptionServiceInternal::Publish`
(subscription_service_internal.cpp:160-163): `operator[]` default-inserts a 0
entry, then the count is bumped by one only while strictly below the cap of
100 (further requests are silently dropped). -/
def publishCreditUpdate (token : NodeIdM) (queues : List (NodeIdM × Nat)) :
    List (NodeIdM × Nat) :=
  let queues1 := match mapFind? token queues with
    | none => mapInsert token 0 queues
    | some _ => queues
  let cur := (mapFind? token queues1).getD 0
  if cur < 100 then mapInsert token (cur + 1) queues1 else queues1

/-- `SubscriptionServiceInternal::PopPublishRequest`
(subscription_service_internal.cpp:191-216), acting on the credit map:
false for an unknown session or a zero count, otherwise decrement and true. -/
def popPublishRequestQueue (queues : List (NodeIdM × Nat)) (session : NodeIdM) :
    List (NodeIdM × Nat) × Bool :=
  match mapFind? session queues with
  | none => (queues, false)
  | some c =>
    if c = 0 then (queues, false)
    else (mapInsert session (c - 1) queues, true)

/-- The service-level state consumed by the claims: the subscription registry
and the per-session publish-request credit map. -/
structure ServiceState where
  subscriptions : List (Nat × SubState)
  publishRequestQueues : List (NodeIdM × Nat)
  deriving DecidableEq

/-- `SubscriptionServiceInternal::Publish` (subscription_service_internal.cpp:156-174):
credit bump followed by routing each acknowledgement to its subscription, if
registered. -/
def servicePublish (req : PublishRequest) (svc : ServiceState) : ServiceState :=
  let queues := publishCreditUpdate req.sessionAuthenticationToken svc.publishRequestQueues
  let subs := req.subscriptionAcknowledgements.foldl
    (fun subs ack =>
      match mapFind? ack.subscriptionId subs with
      | none => subs
      | some sub => mapInsert ack.subscriptionId (newAcknowlegment ack sub) subs)
    svc.subscriptions
  { subscriptions := subs, publishRequestQueues := queues }

/-- Per-item loop of `SubscriptionServiceInternal::CreateMonitoredItems`
(subscription_service_internal.cpp:127-131), threading the subscription state;
`none` propagates the out-of-bounds read of `CreateMonitoredItem`. -/
def createItemsLoop (as : AddressSpaceModel) (sub : SubState) :
    List MonitoredItemRequest → Option (SubState × List CreateMonitoredItemsResult)
  | [] => some (sub, [])
  | req :: rest =>
    match createMonitoredItem as sub req with
    | none => none
    | some (sub', res) =>
      match createItemsLoop as sub' rest with
      | none => none
      | some (subf, ress) => some (subf, res :: ress)

/-- `SubscriptionServiceInternal::CreateMonitoredItems`
(subscription_service_internal.cpp:109-134): an unknown subscription id yields
one default result with `BadSubscriptionIdInvalid` per requested item. -/
def serviceCreateMonitoredItems (as : AddressSpaceModel) (svc : ServiceState)
    (subscriptionId : Nat) (itemsToCreate : List MonitoredItemRequest) :
    Option (ServiceState × List CreateMonitoredItemsResult) :=
  match mapFind? subscriptionId svc.subscriptions with
  | none =>
    some (svc, List.replicate itemsToCreate.length
      { emptyCreateResult with status := StatusCode.BadSubscriptionIdInvalid })
  | some sub =>
    match createItemsLoop as sub itemsToCreate with
    | none => none
    | some (sub', ress) =>
      some ({ svc with subscriptions := mapInsert subscriptionId sub' svc.subscriptions }, ress)

/-- `SubscriptionServiceInternal::DeleteMonitoredItems`
(subscription_service_internal.cpp:136-154). -/
def serviceDeleteMonitoredItems (svc : ServiceState)
    (subscriptionId : Nat) (monitoredItemIds : List Nat) :
    ServiceState × List StatusCode :=
  match mapFind? subscriptionId svc.subscriptions with
  | none =>
    (svc, List.replicate monitoredItemIds.length StatusCode.BadSubscriptionIdInvalid)
  | some sub =>
    let r := deleteMonitoredItemsIds sub monitoredItemIds
    ({ svc with subscriptions := mapInsert subscriptionId r.1 svc.subscriptions }, r.2)

/-- `GenerateEventId` (subscription_service_internal.cpp:16-27): eight calls to
`rand() % INT32_MAX`, each pushed into the byte string.  Modelled from the
spec where the source leaves `src/`: `rand()` is an explicit stream of
naturals, and `ByteString::Data` is a byte vector (the spec calls the result
an 8-byte `EventId`), so each pushed 32-bit value is truncated to one byte. -/
def generateEventId (rng : Nat → Nat) : ByteString :=
  { data := (List.range 8).map (fun i => rng i % 2147483647 % 256) }

/-- `SubscriptionServiceInternal::TriggerEvent`
(subscription_service_internal.cpp:218-234): generate an `EventId` when the
incoming one is empty, then fan the (single, shared) event out to every
registered subscription. -/
def serviceTriggerEvent (rng : Nat → Nat) (svc : ServiceState)
    (node : NodeIdM) (event : Event) : ServiceState :=
  let event1 := if event.eventId.data.isEmpty then { event with eventId := generateEventId rng } else event
  { svc with subscriptions :=
      svc.subscriptions.map (fun p => (p.1, subTriggerEvent p.2 node event1)) }

/-! ### The timer loop and the whole-system step -/

/-- The state reached by one subscription's timer callback: the subscription
itself plus the service's credit map for its session (the only service state
`PublishResults` touches). -/
structure SysState where
  sub : SubState
  credits : List (NodeIdM × Nat)
  deriving DecidableEq

/-- `InternalSubscription::PublishResults` (internal_subscription.cpp:57-85),
one timer callback: on an asio error or expiry, latch `TimerStopped` and
return without rescheduling; otherwise query `HasPublishResult` (which may
bump the keep-alive counter), consume one publish-request credit only when
there is something to send (C++ short-circuit `&&`), emit via
`PopPublishResult` when both succeed (the callback receives `results[0]`
when the vector is non-empty), clear `TimerStopped` and reschedule.
Returns (new state, emission handed to the callback, rescheduled?). -/
def tick (now : Nat) (error : Bool) (st : SysState) : SysState × Option PublishResult × Bool :=
  if error || hasExpired st.sub then
    ({ st with sub := { st.sub with timerStopped := true } }, none, false)
  else
    let h := hasPublishResult st.sub
    let c := if h.2 then popPublishRequestQueue st.credits h.1.currentSession
             else (st.credits, false)
    let p : SubState × Option PublishResult :=
      if h.2 && c.2 then
        let pr := popPublishResult now h.1
        (pr.1, pr.2.head?)
      else (h.1, none)
    ({ sub := { p.1 with timerStopped := false }, credits := c.1 }, p.2, true)

/-- The asio callback chain: each entry provides the wall clock and error flag
of one timer firing; a tick that does not reschedule ends the chain, so no
further callbacks (and hence no further emissions) can occur. -/
def runTimer (st : SysState) : List (Nat × Bool) → List (Option PublishResult)
  | [] => []
  | (now, e) :: rest =>
    let r := tick now e st
    if r.2.2 then r.2.1 :: runTimer r.1 rest else [r.2.1]

/-- One operation of the whole system, as seen by a single subscription: a
timer tick, a client `Publish` (credit plus acknowledgements), an
address-space data-change callback, a service `TriggerEvent` fan-out, a
monitored-item creation, or a batch deletion.  The alphabet over-approximates
the real schedules (for instance it can keep ticking a stopped subscription),
which only strengthens universally quantified trace properties. -/
inductive SysOp where
  | tickOp (now : Nat) (error : Bool)
  | publishOp (req : PublishRequest)
  | dataChangeOp (mid : Nat) (value : DataValueM)
  | triggerEventOp (rng : Nat → Nat) (node : NodeIdM) (event : Event)
  | createItemOp (as : AddressSpaceModel) (req : MonitoredItemRequest)
  | deleteItemsOp (ids : List Nat)

/-- `SubscriptionServiceInternal::Publish` specialised to a system holding a
single subscription: the credit map is updated and each acknowledgement whose
subscription id matches is routed to `NewAcknowlegment`. -/
def sysPublish (req : PublishRequest) (st : SysState) : SysState :=
  let credits := publishCreditUpdate req.sessionAuthenticationToken st.credits
  let sub := req.subscriptionAcknowledgements.foldl
    (fun sub ack => if ack.subscriptionId = sub.data.id then newAcknowlegment ack sub else sub)
    st.sub
  { sub := sub, credits := credits }

/-- Apply one system operation.  The result is `none` exactly when the
operation runs into the undefined out-of-bounds read of
`TriggerDataChangeEvent`, which ends the modelled trace. -/
def applySysOp (st : SysState) : SysOp → Option (SysState × List PublishResult)
  | SysOp.tickOp now e =>
    let r := tick now e st
    some (r.1, r.2.1.toList)
  | SysOp.publishOp req => some (sysPublish req st, [])
  | SysOp.dataChangeOp mid v =>
    some ({ st with sub := dataChangeCallback st.sub mid v }, [])
  | SysOp.triggerEventOp rng node event =>
    let event1 := if event.eventId.data.isEmpty then { event with eventId := generateEventId rng }
                  else event
    some ({ st with sub := subTriggerEvent st.sub node event1 }, [])
  | SysOp.createItemOp as req =>
    match createMonitoredItem as st.sub req with
    | none => none
    | some (sub', _) => some ({ st with sub := sub' }, [])
  | SysOp.deleteItemsOp ids =>
    some ({ st with sub := (deleteMonitoredItemsIds st.sub ids).1 }, [])

/-- Run a sequence of system operations, collecting every `PublishResult`
handed to the user callback, in order. -/
def runOps (st : SysState) : List SysOp → SysState × List PublishResult
  | [] => (st, [])
  | op :: rest =>
    match applySysOp st op with
    | none => (st, [])
    | some (st', ems) =>
      let r := runOps st' rest
      (r.1, ems ++ r.2)

/-! ### Credit-map traces (claim C2) -/

/-- One credit-touching service call for one session. -/
inductive CreditOp where
  | pub (session : NodeIdM)
  | pop (session : NodeIdM)
  deriving DecidableEq, Repr

/-- Apply one credit operation to the credit map. -/
def applyCreditOp (m : List (NodeIdM × Nat)) : CreditOp → List (NodeIdM × Nat)
  | CreditOp.pub s => publishCreditUpdate s m
  | CreditOp.pop s => (popPublishRequestQueue m s).1

/-- Replay a sequence of `Publish` / `PopPublishRequest` calls against the
initially empty credit map of a freshly constructed service. -/
def runCredits (ops : List CreditOp) : List (NodeIdM × Nat) :=
  ops.foldl applyCreditOp []

/-! ### Association-list lemmas -/

theorem mapFind_insert_self (k : Nat) (v : α) (l : List (Nat × α)) :
    mapFind? k (mapInsert k v l) = some v := by
  induction l with
  | nil => simp [mapInsert, mapFind?]
  | cons p rest ih =>
    obtain ⟨k', v'⟩ := p
    by_cases h1 : k < k'
    · simp [mapInsert, h1, mapFind?]
    · by_cases h2 : k = k'
      · simp [mapInsert, h1, h2, mapFind?]
      · simp [mapInsert, h1, h2, mapFind?, ih]

theorem mapFind_insert_ne (k k' : Nat) (v : α) (l : List (Nat × α)) (h : k ≠ k') :
    mapFind? k (mapInsert k' v l) = mapFind? k l := by
  induction l with
  | nil => simp [mapInsert, mapFind?, h]
  | cons p rest ih =>
    obtain ⟨k2, v2⟩ := p
    by_cases h1 : k' < k2
    · simp [mapInsert, h1, mapFind?, h]
    · by_cases h2 : k' = k2
      · subst h2; simp [mapInsert, h1, mapFind?, h]
      · by_cases h3 : k = k2 <;> simp [mapInsert, h1, h2, mapFind?, h3, ih]

theorem mapFind_map (f : α → β) (k : Nat) (l : List (Nat × α)) :
    mapFind? k (l.map (fun p => (p.1, f p.2))) = (mapFind? k l).map f := by
  induction l with
  | nil => simp [mapFind?]
  | cons p rest ih =>
    by_cases h : k = p.1 <;> simp [mapFind?, h, ih]

/-! ### Emission-assembly lemmas -/

theorem popPublishResult_seqId (now : Nat) (s : SubState) :
    (popPublishResult now s).2.map (fun r => r.sequenceId) = [s.notificationSequence] := by
  cases h1 : s.monitoredItemsTriggered.isEmpty <;>
    cases h2 : s.eventTriggered.isEmpty <;>
      simp [popPublishResult, getNotificationData, h1, h2]

theorem popPublishResult_notifSeq (now : Nat) (s : SubState) :
    (popPublishResult now s).1.notificationSequence = (s.notificationSequence + 1) % 4294967296 := by
  cases h1 : s.monitoredItemsTriggered.isEmpty <;>
    cases h2 : s.eventTriggered.isEmpty <;>
      simp [popPublishResult, getNotificationData, h1, h2]

theorem popPublishResult_keepAlive (now : Nat) (s : SubState) :
    (popPublishResult now s).1.keepAliveCount = 0 := by
  cases h1 : s.monitoredItemsTriggered.isEmpty <;>
    cases h2 : s.eventTriggered.isEmpty <;>
      simp [popPublishResult, getNotificationData, h1, h2]

theorem popPublishResult_avail (now : Nat) (s : SubState) :
    (popPublishResult now s).2.map (fun r => r.availableSequenceNumbers)
      = [s.notAcknowledgedResults.map (fun r => r.sequenceId)] := by
  cases h1 : s.monitoredItemsTriggered.isEmpty <;>
    cases h2 : s.eventTriggered.isEmpty <;>
      simp [popPublishResult, getNotificationData, h1, h2]

theorem popPublishResult_notAck (now : Nat) (s : SubState) :
    (popPublishResult now s).1.notAcknowledgedResults
      = s.notAcknowledgedResults ++ (popPublishResult now s).2 := by
  cases h1 : s.monitoredItemsTriggered.isEmpty <;>
    cases h2 : s.eventTriggered.isEmpty <;>
      simp [popPublishResult, getNotificationData, h1, h2]

/-- C6: each emission publishes as `available_sequence_numbers` exactly the
sequence ids of the `not_acknowledged` entries as they were before the new
result is inserted, and then appends a copy of the emitted result;
`acknowledge(seq)` keeps exactly the stored results whose sequence id differs
from `seq`, preserving their order (sublist). -/
theorem c6_available_numbers_and_acknowledge (now : Nat) (s : SubState)
    (ack : SubscriptionAcknowledgement) :
    (popPublishResult now s).2.map (fun r => r.availableSequenceNumbers)
        = [s.notAcknowledgedResults.map (fun r => r.sequenceId)]
    ∧ (popPublishResult now s).1.notAcknowledgedResults
        = s.notAcknowledgedResults ++ (popPublishResult now s).2
    ∧ (∀ r : PublishResult, r ∈ (newAcknowlegment ack s).notAcknowledgedResults
        ↔ r ∈ s.notAcknowledgedResults ∧ r.sequenceId ≠ ack.sequenceNumber)
    ∧ (newAcknowlegment ack s).notAcknowledgedResults.Sublist s.notAcknowledgedResults := by
  refine ⟨popPublishResult_avail now s, popPublishResult_notAck now s, ?_, ?_⟩
  · intro r
    simp [newAcknowlegment, List.mem_filter]
    intro _
    exact ⟨fun h e => h e.symm, fun h e => h e.symm⟩
  · exact List.filter_sublist _

theorem hasPublishResult_snd (s : SubState) :
    (hasPublishResult s).2 =
      (s.startup || !s.monitoredItemsTriggered.isEmpty || !s.eventTriggered.isEmpty
        || decide (s.keepAliveCount > s.data.revizedMaxKeepAliveCount)) := by
  unfold hasPublishResult
  split_ifs <;> simp_all

theorem hasPublishResult_fst_true (s : SubState) (h : (hasPublishResult s).2 = true) :
    (hasPublishResult s).1 = s := by
  unfold hasPublishResult at h ⊢
  split_ifs at h ⊢
  all_goals simp_all

theorem hasPublishResult_fst_false (s : SubState) (h : (hasPublishResult s).2 = false) :
    (hasPublishResult s).1 = { s with keepAliveCount := (s.keepAliveCount + 1) % 4294967296 } := by
  unfold hasPublishResult at h ⊢
  split_ifs at h ⊢
  all_goals simp_all

/-- Acknowledgement used by witnesses. -/
def exAck : SubscriptionAcknowledgement := { subscriptionId := 5, sequenceNumber := 1 }

/-- C3: `has_publish_result` answers true exactly when startup is set, a
queue is non-empty, or the keep-alive counter exceeds the revised maximum;
the keep-alive counter is bumped (as a `uint32_t`) precisely on the false
answer and left alone on the true answer, and every emission
(`pop_publish_result`) resets it to 0. -/
theorem c3_has_publish_result_spec (now : Nat) (s : SubState) :
    ((hasPublishResult s).2 = true ↔
        (s.startup = true ∨ s.monitoredItemsTriggered ≠ [] ∨ s.eventTriggered ≠ []
          ∨ s.keepAliveCount > s.data.revizedMaxKeepAliveCount))
    ∧ ((hasPublishResult s).2 = false →
        (hasPublishResult s).1 = { s with keepAliveCount := (s.keepAliveCount + 1) % 4294967296 })
    ∧ ((hasPublishResult s).2 = true → (hasPublishResult s).1 = s)
    ∧ (popPublishResult now s).1.keepAliveCount = 0 := by
  refine ⟨?_, hasPublishResult_fst_false s, hasPublishResult_fst_true s,
    popPublishResult_keepAlive now s⟩
  rw [hasPublishResult_snd]
  simp only [Bool.or_eq_true, decide_eq_true_iff, Bool.not_eq_true', List.isEmpty_eq_false]
  tauto

/-! ### Claim C7: rollback on a zero callback handle -/

/-- C7: when the address space refuses the data-change callback (handle 0) for
a non-event item, `create_monitored_item` reverts the id-counter
pre-increment, answers `BadNodeAttributesInvalid` (carrying the provisionally
allocated id), and leaves the whole subscription state unchanged — in
particular no `monitored_items` entry is added and no initial data-change
notification is enqueued. -/
theorem c7_create_monitored_item_rollback (as : AddressSpaceModel) (s : SubState)
    (req : MonitoredItemRequest)
    (hAttr : req.itemToMonitor.attrId ≠ AttributeId.eventNotifier)
    (hHandle : as.addDataChangeCallback req.itemToMonitor.node req.itemToMonitor.attrId = 0)
    (hwf : s.lastMonitoredItemId < 4294967296) :
    createMonitoredItem as s req =
      some (s, { emptyCreateResult with
                   monitoredItemId := (s.lastMonitoredItemId + 1) % 4294967296,
                   status := StatusCode.BadNodeAttributesInvalid }) := by
  obtain ⟨d, cs, ltc, su, ts, kac, ns, lmi, mim, me, mit, et, nar⟩ := s
  simp only [createMonitoredItem, hAttr, if_false, hHandle, if_pos, if_true, ite_false,
    ite_true, if_neg, not_false_iff]
  simp only [SubState.mk.injEq] at hwf ⊢
  simp_all
  omega

/-- Address space that always refuses data-change callbacks. -/
def exAddressSpaceRefuse : AddressSpaceModel :=
  { read := fun _ => [42], addDataChangeCallback := fun _ _ => 0 }

/-- Address space that accepts callbacks but whose `Read` returns nothing. -/
def exAddressSpaceEmptyRead : AddressSpaceModel :=
  { read := fun _ => [], addDataChangeCallback := fun _ _ => 1 }

/-- Example subscription parameters used by witnesses. -/
def exSubData : SubscriptionData :=
  { id := 5, revisedPublishingInterval := 100, revisedLifetimeCount := 10,
    revizedMaxKeepAliveCount := 3 }

/-- Example non-event monitored-item request used by witnesses. -/
def exDataRequest : MonitoredItemRequest :=
  { itemToMonitor := { node := 2, attrId := AttributeId.value }
    mode := 0
    parameters := { clientHandle := 9, queueSize := 1,
                    filter := { event := { selectClauses := [] } } } }

theorem c3_has_publish_result_spec_witness :
    (popPublishResult 0 (initialSubState exSubData 7)).1.keepAliveCount = 0 :=
  (c3_has_publish_result_spec 0 (initialSubState exSubData 7)).2.2.2

theorem c6_available_numbers_and_acknowledge_witness :
    (popPublishResult 0 (initialSubState exSubData 7)).2.map
        (fun r => r.availableSequenceNumbers)
      = [(initialSubState exSubData 7).notAcknowledgedResults.map (fun r => r.sequenceId)] :=
  (c6_available_numbers_and_acknowledge 0 (initialSubState exSubData 7) exAck).1

theorem c7_create_monitored_item_rollback_witness :
    createMonitoredItem exAddressSpaceRefuse (initialSubState exSubData 7) exDataRequest =
      some (initialSubState exSubData 7,
        { emptyCreateResult with
            monitoredItemId := 1,
            status := StatusCode.BadNodeAttributesInvalid }) :=
  c7_create_monitored_item_rollback exAddressSpaceRefuse (initialSubState exSubData 7)
    exDataRequest (by decide) rfl (by decide)

/-! ### Claim C10: the unchecked `vals[0]` of the initial read -/

/-- C10: `TriggerDataChangeEvent` reads the single requested attribute and
accesses `vals[0]` with no emptiness check, so it (and hence the successful
path of `create_monitored_item`, which performs this initial read) is total
exactly when the address-space read of the one-element attribute list returns
at least one `DataValue`; the out-of-bounds branch (`none`) is reached exactly
on an empty read result. -/
theorem c10_initial_read_totality (as : AddressSpaceModel) (s : SubState)
    (mdata : DataMonitoredItems) (attrval : AttributeValueId) (req : MonitoredItemRequest)
    (hAttr : req.itemToMonitor.attrId ≠ AttributeId.eventNotifier)
    (hHandle : as.addDataChangeCallback req.itemToMonitor.node req.itemToMonitor.attrId ≠ 0) :
    ((triggerDataChangeEvent as s mdata attrval = none)
        ↔ as.read { attributesToRead := [attrval] } = [])
    ∧ ((createMonitoredItem as s req = none)
        ↔ as.read { attributesToRead := [req.itemToMonitor] } = []) := by
  constructor
  · unfold triggerDataChangeEvent
    cases h : as.read { attributesToRead := [attrval] } <;> simp [h]
  · unfold createMonitoredItem createMonitoredItemCommon triggerDataChangeEvent
    simp only [hAttr, if_false, hHandle, ite_false]
    cases h : as.read { attributesToRead := [req.itemToMonitor] } <;> simp [h, hHandle]

theorem c10_initial_read_totality_witness :
    createMonitoredItem exAddressSpaceEmptyRead (initialSubState exSubData 7) exDataRequest
      = none :=
  (c10_initial_read_totality exAddressSpaceEmptyRead (initialSubState exSubData 7)
    { parameters := emptyCreateResult, mode := 0, clientHandle := 0, callbackHandle := 1 }
    { node := 2, attrId := AttributeId.value } exDataRequest
    (by decide) (by decide)).2.mpr rfl

/-! ### Claim C2: the publish-request credit counter -/

/-- All counts in a credit map are at most the cap of 100. -/
def creditInvariant (m : List (NodeIdM × Nat)) : Prop :=
  ∀ k c, mapFind? k m = some c → c ≤ 100

theorem creditInvariant_insert (m : List (NodeIdM × Nat)) (k v : Nat)
    (h : creditInvariant m) (hv : v ≤ 100) : creditInvariant (mapInsert k v m) := by
  intro k' c hf
  by_cases e : k' = k
  · subst e
    rw [mapFind_insert_self] at hf
    cases hf
    exact hv
  · rw [mapFind_insert_ne _ _ _ _ e] at hf
    exact h _ _ hf

theorem publishCreditUpdate_preserves (token : NodeIdM) (m : List (NodeIdM × Nat))
    (h : creditInvariant m) : creditInvariant (publishCreditUpdate token m) := by
  unfold publishCreditUpdate
  cases hf : mapFind? token m with
  | none =>
    simp only [hf, mapFind_insert_self, Option.getD_some]
    simp only [Nat.zero_lt_succ, if_pos, Nat.zero_add]
    exact creditInvariant_insert _ _ _ (creditInvariant_insert _ _ _ h (by omega)) (by omega)
  | some c =>
    have hc : c ≤ 100 := h _ _ hf
    simp only [hf, Option.getD_some]
    by_cases hlt : c < 100
    · simp only [hlt, if_pos]
      exact creditInvariant_insert _ _ _ h (by omega)
    · simp only [hlt, if_neg, ite_false]
      exact h

theorem popPublishRequestQueue_preserves (m : List (NodeIdM × Nat)) (s : NodeIdM)
    (h : creditInvariant m) : creditInvariant (popPublishRequestQueue m s).1 := by
  unfold popPublishRequestQueue
  cases hf : mapFind? s m with
  | none => simpa using h
  | some c =>
    by_cases hc : c = 0
    · simp only [hc, if_pos]
      exact h
    · simp only [hc, if_neg, ite_false]
      exact creditInvariant_insert _ _ _ h (by have := h _ _ hf; omega)

theorem runCredits_invariant_aux (ops : List CreditOp) (m : List (NodeIdM × Nat))
    (h : creditInvariant m) : creditInvariant (ops.foldl applyCreditOp m) := by
  induction ops generalizing m with
  | nil => exact h
  | cons op rest ih =>
    refine ih _ ?_
    cases op with
    | pub s => exact publishCreditUpdate_preserves _ _ h
    | pop s => exact popPublishRequestQueue_preserves _ _ h

theorem publishCreditUpdate_find_self (token : NodeIdM) (m : List (NodeIdM × Nat)) :
    mapFind? token (publishCreditUpdate token m) =
      some (if (mapFind? token m).getD 0 < 100
            then (mapFind? token m).getD 0 + 1 else (mapFind? token m).getD 0) := by
  have h100 : (0 : Nat) < 100 := by omega
  unfold publishCreditUpdate
  cases hf : mapFind? token m with
  | none => simp [mapFind_insert_self, hf, h100]
  | some cc => by_cases hlt : cc < 100 <;> simp [hf, hlt, mapFind_insert_self]

theorem publishCreditUpdate_find_other (token : NodeIdM) (m : List (NodeIdM × Nat))
    (t : NodeIdM) (ht : t ≠ token) :
    mapFind? t (publishCreditUpdate token m) = mapFind? t m := by
  have h100 : (0 : Nat) < 100 := by omega
  unfold publishCreditUpdate
  cases hf : mapFind? token m with
  | none => simp [mapFind_insert_self, hf, h100, mapFind_insert_ne _ _ _ _ ht]
  | some cc => by_cases hlt : cc < 100 <;> simp [hf, hlt, mapFind_insert_ne _ _ _ _ ht]

theorem popPublishRequestQueue_true_iff (m : List (NodeIdM × Nat)) (s : NodeIdM) :
    (popPublishRequestQueue m s).2 = true ↔ ∃ c, mapFind? s m = some c ∧ 0 < c := by
  unfold popPublishRequestQueue
  cases hf : mapFind? s m with
  | none => simp
  | some c =>
    by_cases hc : c = 0 <;> simp [hc]
    exact Nat.pos_of_ne_zero hc

theorem popPublishRequestQueue_true_dec (m : List (NodeIdM × Nat)) (s : NodeIdM)
    (h : (popPublishRequestQueue m s).2 = true) :
    mapFind? s (popPublishRequestQueue m s).1 = some ((mapFind? s m).getD 0 - 1) := by
  unfold popPublishRequestQueue at h ⊢
  cases hf : mapFind? s m with
  | none => rw [hf] at h; simp at h
  | some c =>
    by_cases hc : c = 0 <;> simp_all [mapFind_insert_self]

theorem popPublishRequestQueue_false_id (m : List (NodeIdM × Nat)) (s : NodeIdM)
    (h : (popPublishRequestQueue m s).2 = false) :
    (popPublishRequestQueue m s).1 = m := by
  unfold popPublishRequestQueue at h ⊢
  cases hf : mapFind? s m with
  | none => simp [hf]
  | some c =>
    by_cases hc : c = 0 <;> simp_all

/-- C2: starting from the freshly constructed (empty) credit map, after any
sequence of `Publish` / `PopPublishRequest` calls every session's credit lies
in 0..100; a `Publish` bumps the caller's credit by exactly one when it is
below 100 and silently drops the request at the cap (other sessions are
untouched); `PopPublishRequest` answers true and decrements by one exactly
when the session is known with strictly positive credit, and answers false
leaving the map unchanged for an unknown session or a zero credit. -/
theorem c2_credit_bounds (ops : List CreditOp) (k c : Nat)
    (hfind : mapFind? k (runCredits ops) = some c) :
    c ≤ 100
    ∧ (∀ (m : List (NodeIdM × Nat)) (token : NodeIdM),
        mapFind? token (publishCreditUpdate token m) =
          some (if (mapFind? token m).getD 0 < 100
                then (mapFind? token m).getD 0 + 1 else (mapFind? token m).getD 0)
        ∧ ∀ t, t ≠ token → mapFind? t (publishCreditUpdate token m) = mapFind? t m)
    ∧ (∀ (m : List (NodeIdM × Nat)) (session : NodeIdM),
        ((popPublishRequestQueue m session).2 = true
            ↔ ∃ cc, mapFind? session m = some cc ∧ 0 < cc)
        ∧ ((popPublishRequestQueue m session).2 = true →
            mapFind? session (popPublishRequestQueue m session).1 =
              some ((mapFind? session m).getD 0 - 1))
        ∧ ((popPublishRequestQueue m session).2 = false →
            (popPublishRequestQueue m session).1 = m)) := by
  exact ⟨runCredits_invariant_aux ops [] (fun a b hb => by simp [mapFind?] at hb) k c hfind,
    fun m token => ⟨publishCreditUpdate_find_self token m,
      fun t ht => publishCreditUpdate_find_other token m t ht⟩,
    fun m session => ⟨popPublishRequestQueue_true_iff m session,
      popPublishRequestQueue_true_dec m session,
      popPublishRequestQueue_false_id m session⟩⟩

theorem c2_credit_bounds_witness : (1 : Nat) ≤ 100 :=
  (c2_credit_bounds [CreditOp.pub 3] 3 1 (by decide)).1

/-! ### Claim C8: batch operations keep the request shape -/

theorem createItemsLoop_length (as : AddressSpaceModel) (reqs : List MonitoredItemRequest)
    (sub sub' : SubState) (ress : List CreateMonitoredItemsResult)
    (h : createItemsLoop as sub reqs = some (sub', ress)) : ress.length = reqs.length := by
  induction reqs generalizing sub sub' ress with
  | nil =>
    unfold createItemsLoop at h
    simp only [Option.some.injEq, Prod.mk.injEq] at h
    obtain ⟨h1, h2⟩ := h
    subst h2
    rfl
  | cons r rest ih =>
    unfold createItemsLoop at h
    cases h1 : createMonitoredItem as sub r with
    | none => simp [h1] at h
    | some p =>
      obtain ⟨s1, r1⟩ := p
      simp only [h1] at h
      cases h2 : createItemsLoop as s1 rest with
      | none => simp [h2] at h
      | some q =>
        obtain ⟨s2, r2⟩ := q
        simp only [h2, Option.some.injEq, Prod.mk.injEq] at h
        obtain ⟨h3, h4⟩ := h
        subst h4
        simp [ih s1 s2 r2 h2]

theorem deleteOneItem_length (acc : SubState × List StatusCode) (handle : Nat) :
    (deleteOneItem acc handle).2.length = acc.2.length + 1 := by
  unfold deleteOneItem
  cases hf : mapFind? handle acc.1.monitoredItemsMap <;> simp [hf]

theorem foldl_deleteOneItem_length (ids : List Nat) (acc : SubState × List StatusCode) :
    (ids.foldl deleteOneItem acc).2.length = acc.2.length + ids.length := by
  induction ids generalizing acc with
  | nil => simp
  | cons i rest ih =>
    simp only [List.foldl_cons]
    rw [ih (deleteOneItem acc i), deleteOneItem_length]
    simp only [List.length_cons]
    omega

/-- C8: a `CreateMonitoredItems` or `DeleteMonitoredItems` request naming an
unregistered subscription id yields a uniform `BadSubscriptionIdInvalid`
vector of the same length as the request's item list, leaving the service
unchanged; and on a registered subscription both batch loops return exactly
one result per requested item, so per-item errors never shorten or abort the
result vector. -/
theorem c8_batch_result_shape (as : AddressSpaceModel) (svc : ServiceState)
    (subId : Nat) (items : List MonitoredItemRequest) (ids : List Nat)
    (svc2 : ServiceState) (subId2 : Nat) (items2 : List MonitoredItemRequest)
    (ids2 : List Nat) (sub : SubState)
    (hunk : mapFind? subId svc.subscriptions = none)
    (hknown : mapFind? subId2 svc2.subscriptions = some sub) :
    (∃ l, serviceCreateMonitoredItems as svc subId items = some (svc, l)
        ∧ l.length = items.length
        ∧ ∀ r ∈ l, r.status = StatusCode.BadSubscriptionIdInvalid)
    ∧ serviceDeleteMonitoredItems svc subId ids
        = (svc, List.replicate ids.length StatusCode.BadSubscriptionIdInvalid)
    ∧ (∀ svc' l, serviceCreateMonitoredItems as svc2 subId2 items2 = some (svc', l)
        → l.length = items2.length)
    ∧ (serviceDeleteMonitoredItems svc2 subId2 ids2).2.length = ids2.length := by
  refine ⟨?_, ?_, ?_, ?_⟩
  · unfold serviceCreateMonitoredItems
    rw [hunk]
    refine ⟨_, rfl, List.length_replicate _ _, fun r hr => ?_⟩
    rw [List.eq_of_mem_replicate hr]
  · unfold serviceDeleteMonitoredItems
    rw [hunk]
  · intro svc' l h
    unfold serviceCreateMonitoredItems at h
    rw [hknown] at h
    cases h2 : createItemsLoop as sub items2 with
    | none => simp [h2] at h
    | some p =>
      obtain ⟨s1, r1⟩ := p
      simp only [h2, Option.some.injEq, Prod.mk.injEq] at h
      obtain ⟨h3, h4⟩ := h
      subst h4
      exact createItemsLoop_length as items2 sub s1 r1 h2
  · unfold serviceDeleteMonitoredItems
    rw [hknown]
    simp [deleteMonitoredItemsIds, foldl_deleteOneItem_length]

/-- Service with no subscriptions, used by witnesses. -/
def exEmptyService : ServiceState := { subscriptions := [], publishRequestQueues := [] }

/-- Service holding one registered subscription, used by witnesses. -/
def exOneSubService : ServiceState :=
  { subscriptions := [(1, initialSubState exSubData 7)], publishRequestQueues := [] }

theorem c8_batch_result_shape_witness :
    (serviceDeleteMonitoredItems exOneSubService 1 [9]).2.length = 1 :=
  (c8_batch_result_shape exAddressSpaceRefuse exEmptyService 1 [exDataRequest] [4]
    exOneSubService 1 [] [9] (initialSubState exSubData 7) rfl rfl).2.2.2

/-! ### Claim C9: event fan-out with a freshly generated id -/

/-- Monitored-item record used by the C9 witness. -/
def exEventMData : DataMonitoredItems :=
  { parameters := emptyCreateResult, mode := 0, clientHandle := 11, callbackHandle := 0 }

/-- Subscription holding one event monitored-item on node 2. -/
def exEventSub : SubState :=
  { initialSubState exSubData 7 with
      monitoredEvents := [(2, 1)]
      monitoredItemsMap := [(1, exEventMData)] }

/-- An incoming event with an empty `EventId`. -/
def exEmptyIdEvent : Event :=
  { eventId := { data := [] }
    eventType := 0
    sourceNode := 0
    sourceName := ""
    message := ""
    severity := 0
    localTime := 0
    receiveTime := 0
    time := 0
    getValueAttr := fun _ => Variant.vNat 0
    getValuePath := fun _ => Variant.vNat 0 }

/-- C9: when `trigger_event` receives an event whose `EventId` is empty, the
service substitutes one generated id — eight pseudo-random 32-bit values, each
stored as one byte of the byte-string — before fanning out, so every
registered subscription holding a live event monitored-item on that node gets
an `EventFieldList` projected from the same patched event. -/
theorem c9_trigger_event_shared_generated_id (rng : Nat → Nat) (svc : ServiceState)
    (node : NodeIdM) (event : Event) (i mid : Nat) (sub : SubState)
    (mdata : DataMonitoredItems)
    (hEmpty : event.eventId.data = [])
    (hSub : mapFind? i svc.subscriptions = some sub)
    (hEv : mapFind? node sub.monitoredEvents = some mid)
    (hItem : mapFind? mid sub.monitoredItemsMap = some mdata) :
    mapFind? i (serviceTriggerEvent rng svc node event).subscriptions
      = some { sub with eventTriggered := sub.eventTriggered ++
          [{ clientHandle := mdata.clientHandle,
             eventFields := getEventFields mdata.parameters.filter.event
               { event with eventId := generateEventId rng } }] }
    ∧ (generateEventId rng).data.length = 8
    ∧ ∀ b ∈ (generateEventId rng).data, b < 256 := by
  refine ⟨?_, by simp [generateEventId], ?_⟩
  · unfold serviceTriggerEvent
    simp only [hEmpty, List.isEmpty_nil, if_pos, if_true, ite_true]
    rw [mapFind_map (fun p => subTriggerEvent p node { event with eventId := generateEventId rng }), hSub]
    simp [subTriggerEvent, hEv, enqueueEvent, hItem]
  · intro b hb
    simp only [generateEventId, List.mem_map, List.mem_range] at hb
    obtain ⟨j, _, rfl⟩ := hb
    exact Nat.mod_lt _ (by omega)

theorem c9_trigger_event_shared_generated_id_witness :
    (generateEventId (fun j => j)).data.length = 8 :=
  (c9_trigger_event_shared_generated_id (fun j => j)
    { subscriptions := [(1, exEventSub)], publishRequestQueues := [] }
    2 exEmptyIdEvent 1 1 exEventSub exEventMData rfl rfl rfl rfl).2.1

/-! ### Claim C5: the stop latch ends the emission stream -/

theorem tick_timerStopped_eq (now : Nat) (e : Bool) (st : SysState) :
    (tick now e st).1.sub.timerStopped = (e || hasExpired st.sub) := by
  unfold tick
  cases hbe : (e || hasExpired st.sub) <;> simp [hbe]

theorem tick_stop_eq (now : Nat) (e : Bool) (st : SysState)
    (hc : (e || hasExpired st.sub) = true) :
    tick now e st = ({ st with sub := { st.sub with timerStopped := true } }, none, false) := by
  unfold tick
  simp [hc]

/-- C5: a timer callback that fires with an asio error, or finds the
subscription expired (`keep_alive_count > revised_lifetime_count`), latches
`timer_stopped = true`, emits nothing, and does not reschedule — and the
latch is exact: after any other tick `timer_stopped` is false.  Since an
unrescheduled timer produces no further callbacks, the emission stream of the
whole callback chain ends there: the chain degenerates to the single empty
emission. -/
theorem c5_stop_latch_no_further_emissions (now : Nat) (e : Bool) (st : SysState)
    (rest : List (Nat × Bool)) (hstop : e = true ∨ hasExpired st.sub = true) :
    ((tick now e st).1.sub.timerStopped = true ↔ (e = true ∨ hasExpired st.sub = true))
    ∧ tick now e st = ({ st with sub := { st.sub with timerStopped := true } }, none, false)
    ∧ runTimer st ((now, e) :: rest) = [none] := by
  have hc : (e || hasExpired st.sub) = true := by
    rcases hstop with h | h <;> simp [h]
  refine ⟨?_, tick_stop_eq now e st hc, ?_⟩
  · rw [tick_timerStopped_eq, hc]
    simp [hstop]
  · unfold runTimer
    rw [tick_stop_eq now e st hc]
    rfl

/-- A subscription state that has outlived its lifetime. -/
def exExpiredState : SysState :=
  { sub := { initialSubState exSubData 7 with startup := false, keepAliveCount := 11 },
    credits := [] }

theorem c5_stop_latch_no_further_emissions_witness :
    runTimer exExpiredState [(0, false), (1, false), (2, false)] = [none] :=
  (c5_stop_latch_no_further_emissions 0 false exExpiredState [(1, false), (2, false)]
    (Or.inr (by decide))).2.2

/-! ### Claim C4: credit starvation and the keep-alive counter -/

/-- A state holding pending data whose session has no publish credit. -/
def exStarvedState : SysState :=
  { sub := { initialSubState exSubData 7 with
        startup := false
        keepAliveCount := 5
        monitoredItemsTriggered := [{ clientHandle := 1, value := 42 }] },
    credits := [] }

/-- C4 counterexample: at `exStarvedState` the data queue is non-empty and
`pop_publish_request` fails (no credit), the subscription is not expired, yet
the tick leaves `keep_alive_count` at 5 — it is not incremented as the claim
asserts. -/
theorem c4_counterexample :
    exStarvedState.sub.monitoredItemsTriggered ≠ []
    ∧ (popPublishRequestQueue exStarvedState.credits exStarvedState.sub.currentSession).2 = false
    ∧ hasExpired exStarvedState.sub = false
    ∧ (tick 0 false exStarvedState).1.sub.keepAliveCount = 5
    ∧ ¬ (tick 0 false exStarvedState).1.sub.keepAliveCount
        = (exStarvedState.sub.keepAliveCount + 1) % 4294967296 := by decide

/-- C4 (amended): on a tick where a queue holds pending data (or startup is
set) but `pop_publish_request` returns false, `keep_alive_count` is left
unchanged — `has_publish_result` answers true on its first branch without
touching the counter, and no emission resets it — so credit starvation with
pending data is NOT counted against the subscription's lifetime. -/
theorem c4_starved_tick_keepalive_unchanged (now : Nat) (st : SysState)
    (hexp : hasExpired st.sub = false)
    (hdata : st.sub.startup = true ∨ st.sub.monitoredItemsTriggered ≠ []
              ∨ st.sub.eventTriggered ≠ [])
    (hcredit : (popPublishRequestQueue st.credits st.sub.currentSession).2 = false) :
    (tick now false st).1.sub.keepAliveCount = st.sub.keepAliveCount
    ∧ (tick now false st).2.1 = none := by
  have hhp : (hasPublishResult st.sub).2 = true := by
    rw [hasPublishResult_snd]
    rcases hdata with h | h | h <;> simp [h]
  have hfst : (hasPublishResult st.sub).1 = st.sub := hasPublishResult_fst_true _ hhp
  unfold tick
  simp [hexp, hhp, hfst, hcredit]

theorem c4_starved_tick_keepalive_unchanged_witness :
    (tick 0 false exStarvedState).1.sub.keepAliveCount = exStarvedState.sub.keepAliveCount
    ∧ (tick 0 false exStarvedState).2.1 = none :=
  c4_starved_tick_keepalive_unchanged 0 exStarvedState (by decide)
    (Or.inr (Or.inl (by decide))) (by decide)

/-! ### Claim C1: sequence ids are 1, 2, 3, ... with no gaps -/

theorem hasPublishResult_fst_notifSeq (s : SubState) :
    (hasPublishResult s).1.notificationSequence = s.notificationSequence := by
  unfold hasPublishResult
  split_ifs <;> rfl

theorem popPublishResult_snd_eq (now : Nat) (s : SubState) :
    ∃ r, (popPublishResult now s).2 = [r] ∧ r.sequenceId = s.notificationSequence := by
  cases h1 : s.monitoredItemsTriggered.isEmpty <;>
    cases h2 : s.eventTriggered.isEmpty <;>
      simp [popPublishResult, getNotificationData, h1, h2]

theorem ackFold_notifSeq (acks : List SubscriptionAcknowledgement) (sub : SubState) :
    (acks.foldl
        (fun sub ack => if ack.subscriptionId = sub.data.id then newAcknowlegment ack sub else sub)
        sub).notificationSequence = sub.notificationSequence := by
  induction acks generalizing sub with
  | nil => rfl
  | cons a rest ih =>
    simp only [List.foldl_cons]
    rw [ih]
    by_cases h : a.subscriptionId = sub.data.id <;> simp [h, newAcknowlegment]

theorem dataChangeCallback_notifSeq (s : SubState) (mid : Nat) (v : DataValueM) :
    (dataChangeCallback s mid v).notificationSequence = s.notificationSequence := by
  unfold dataChangeCallback
  cases mapFind? mid s.monitoredItemsMap <;> rfl

theorem subTriggerEvent_notifSeq (s : SubState) (node : NodeIdM) (event : Event) :
    (subTriggerEvent s node event).notificationSequence = s.notificationSequence := by
  unfold subTriggerEvent enqueueEvent
  cases hf : mapFind? node s.monitoredEvents with
  | none => rfl
  | some mid => cases hf2 : mapFind? mid s.monitoredItemsMap <;> simp [hf2]

theorem triggerDataChangeEvent_notifSeq (as : AddressSpaceModel) (s s' : SubState)
    (md : DataMonitoredItems) (a : AttributeValueId)
    (h : triggerDataChangeEvent as s md a = some s') :
    s'.notificationSequence = s.notificationSequence := by
  unfold triggerDataChangeEvent at h
  cases hr : as.read { attributesToRead := [a] } with
  | nil => simp [hr] at h
  | cons v rest =>
    simp only [hr, Option.some.injEq] at h
    subst h
    rfl

theorem createMonitoredItem_notifSeq (as : AddressSpaceModel) (s s' : SubState)
    (req : MonitoredItemRequest) (res : CreateMonitoredItemsResult)
    (h : createMonitoredItem as s req = some (s', res)) :
    s'.notificationSequence = s.notificationSequence := by
  unfold createMonitoredItem createMonitoredItemCommon at h
  by_cases ha : req.itemToMonitor.attrId = AttributeId.eventNotifier
  · simp only [ha, if_true, ite_true, Option.map_eq_some'] at h
    obtain ⟨s3, ht, hf⟩ := h
    have := triggerDataChangeEvent_notifSeq as _ s3 _ _ ht
    simp only [Prod.mk.injEq] at hf
    obtain ⟨hf1, _⟩ := hf
    subst hf1
    exact this
  · simp only [ha, if_false, ite_false] at h
    by_cases hh : as.addDataChangeCallback req.itemToMonitor.node req.itemToMonitor.attrId = 0
    · simp only [hh, if_pos, if_true, ite_true, Option.some.injEq, Prod.mk.injEq] at h
      obtain ⟨h1, _⟩ := h
      subst h1
      rfl
    · simp only [hh, if_neg, ite_false, Option.map_eq_some'] at h
      obtain ⟨s3, ht, hf⟩ := h
      have := triggerDataChangeEvent_notifSeq as _ s3 _ _ ht
      simp only [Prod.mk.injEq] at hf
      obtain ⟨hf1, _⟩ := hf
      subst hf1
      exact this

theorem foldl_deleteOneItem_notifSeq (ids : List Nat) (acc : SubState × List StatusCode) :
    (ids.foldl deleteOneItem acc).1.notificationSequence = acc.1.notificationSequence := by
  induction ids generalizing acc with
  | nil => rfl
  | cons i rest ih =>
    simp only [List.foldl_cons]
    rw [ih]
    unfold deleteOneItem
    cases hf : mapFind? i acc.1.monitoredItemsMap <;> simp [hf]

/-- Per-tick casework: either nothing is emitted and the sequence counter is
untouched, or exactly the current counter value is emitted and the counter is
bumped by one modulo 2^32. -/
theorem tick_seq_cases (now : Nat) (e : Bool) (st : SysState) :
    ((tick now e st).2.1 = none
      ∧ (tick now e st).1.sub.notificationSequence = st.sub.notificationSequence)
    ∨ ((tick now e st).2.1.toList.map (fun r => r.sequenceId) = [st.sub.notificationSequence]
      ∧ (tick now e st).1.sub.notificationSequence
          = (st.sub.notificationSequence + 1) % 4294967296) := by
  unfold tick
  cases hbe : (e || hasExpired st.sub) with
  | true => left; simp [hbe]
  | false =>
    simp only [hbe, Bool.false_eq_true, if_false, ite_false]
    cases hh : (hasPublishResult st.sub).2 with
    | false =>
      left
      simp [hh, hasPublishResult_fst_notifSeq]
    | true =>
      cases hcr : (popPublishRequestQueue st.credits (hasPublishResult st.sub).1.currentSession).2 with
      | false =>
        left
        simp [hh, hcr, hasPublishResult_fst_notifSeq]
      | true =>
        right
        obtain ⟨r, hr2, hrs⟩ := popPublishResult_snd_eq now (hasPublishResult st.sub).1
        rw [hasPublishResult_fst_notifSeq] at hrs
        simp [hh, hcr, hr2, hrs, popPublishResult_notifSeq, hasPublishResult_fst_notifSeq]

/-- Per-operation casework lifted to `applySysOp`. -/
theorem applySysOp_seq_cases (st : SysState) (op : SysOp) (st' : SysState)
    (ems : List PublishResult) (h : applySysOp st op = some (st', ems)) :
    (ems = [] ∧ st'.sub.notificationSequence = st.sub.notificationSequence)
    ∨ (ems.map (fun r => r.sequenceId) = [st.sub.notificationSequence]
        ∧ st'.sub.notificationSequence = (st.sub.notificationSequence + 1) % 4294967296) := by
  cases op with
  | tickOp now e =>
    simp only [applySysOp, Option.some.injEq, Prod.mk.injEq] at h
    obtain ⟨h1, h2⟩ := h
    subst h1; subst h2
    rcases tick_seq_cases now e st with ⟨hn, hs⟩ | ⟨hm, hs⟩
    · left; exact ⟨by rw [hn]; rfl, hs⟩
    · right; exact ⟨hm, hs⟩
  | publishOp req =>
    simp only [applySysOp, Option.some.injEq, Prod.mk.injEq] at h
    obtain ⟨h1, h2⟩ := h
    subst h1; subst h2
    left
    exact ⟨rfl, ackFold_notifSeq req.subscriptionAcknowledgements st.sub⟩
  | dataChangeOp mid v =>
    simp only [applySysOp, Option.some.injEq, Prod.mk.injEq] at h
    obtain ⟨h1, h2⟩ := h
    subst h1; subst h2
    left
    exact ⟨rfl, dataChangeCallback_notifSeq st.sub mid v⟩
  | triggerEventOp rng node event =>
    simp only [applySysOp, Option.some.injEq, Prod.mk.injEq] at h
    obtain ⟨h1, h2⟩ := h
    subst h1; subst h2
    left
    exact ⟨rfl, subTriggerEvent_notifSeq st.sub node _⟩
  | createItemOp as req =>
    simp only [applySysOp] at h
    cases hc : createMonitoredItem as st.sub req with
    | none => simp [hc] at h
    | some p =>
      obtain ⟨s1, r1⟩ := p
      simp only [hc, Option.some.injEq, Prod.mk.injEq] at h
      obtain ⟨h1, h2⟩ := h
      subst h1; subst h2
      left
      exact ⟨rfl, createMonitoredItem_notifSeq as st.sub s1 req r1 hc⟩
  | deleteItemsOp ids =>
    simp only [applySysOp, Option.some.injEq, Prod.mk.injEq] at h
    obtain ⟨h1, h2⟩ := h
    subst h1; subst h2
    left
    exact ⟨rfl, foldl_deleteOneItem_notifSeq ids (st.sub, [])⟩

/-- Trace invariant: as long as the `uint32_t` sequence counter cannot wrap,
the emitted sequence ids are consecutive starting at the current counter. -/
theorem runOps_seq_range (ops : List SysOp) (st : SysState)
    (hbound : st.sub.notificationSequence + ops.length ≤ 4294967296) :
    (runOps st ops).2.map (fun r => r.sequenceId)
      = List.range' st.sub.notificationSequence (runOps st ops).2.length := by
  induction ops generalizing st with
  | nil => simp [runOps]
  | cons op rest ih =>
    unfold runOps
    cases hap : applySysOp st op with
    | none => simp
    | some p =>
      obtain ⟨st', ems⟩ := p
      rcases applySysOp_seq_cases st op st' ems hap with ⟨he, hs⟩ | ⟨he, hs⟩
      · subst he
        simp only [List.nil_append]
        rw [← hs]
        refine ih st' ?_
        rw [hs]
        simp only [List.length_cons] at hbound
        omega
      · have hlen : ems.length = 1 := by
          have := congrArg List.length he
          simpa using this
        obtain ⟨r, rfl⟩ : ∃ r, ems = [r] := by
          cases ems with
          | nil => simp at hlen
          | cons a t =>
            cases t with
            | nil => exact ⟨a, rfl⟩
            | cons b t2 => simp at hlen
        have hr : r.sequenceId = st.sub.notificationSequence := by
          simpa using he
        have hbound2 : st.sub.notificationSequence + rest.length + 1 ≤ 4294967296 := by
          simp only [List.length_cons] at hbound
          omega
        by_cases hw : st.sub.notificationSequence + 1 < 4294967296
        · have hs' : st'.sub.notificationSequence = st.sub.notificationSequence + 1 := by
            rw [hs]
            exact Nat.mod_eq_of_lt hw
          have ihr := ih st' (by rw [hs']; omega)
          simp only [List.cons_append, List.nil_append, List.map_cons, List.length_cons,
            List.range'_succ, hr, List.cons.injEq, true_and]
          rw [ihr, hs']
        · have hrest : rest = [] := List.length_eq_zero.mp (by omega)
          subst hrest
          simp [runOps, hr]

/-- C1: from a fresh subscription, over any interleaving of system operations
short enough that the `uint32_t` sequence counter cannot wrap, the sequence
ids handed to the publish callback are exactly 1, 2, 3, ... — strictly
monotonic, starting at 1, with no gaps; and each single `pop_publish_result`
(keep-alive emissions included) stamps the current `notification_sequence`
into its result and advances the counter by exactly one (modulo 2^32). -/
theorem c1_sequence_ids_monotonic (d : SubscriptionData) (session : NodeIdM)
    (credits : List (NodeIdM × Nat)) (ops : List SysOp) (now : Nat) (s : SubState)
    (hbound : ops.length ≤ 4294967295) :
    (runOps { sub := initialSubState d session, credits := credits } ops).2.map
        (fun r => r.sequenceId)
      = List.range' 1
          (runOps { sub := initialSubState d session, credits := credits } ops).2.length
    ∧ (popPublishResult now s).2.map (fun r => r.sequenceId) = [s.notificationSequence]
    ∧ (popPublishResult now s).1.notificationSequence
        = (s.notificationSequence + 1) % 4294967296 :=
  ⟨runOps_seq_range ops _ (by simp only [initialSubState]; omega),
   popPublishResult_seqId now s, popPublishResult_notifSeq now s⟩

theorem c1_sequence_ids_monotonic_witness :
    (runOps { sub := initialSubState exSubData 7, credits := [(7, 2)] }
        [SysOp.tickOp 0 false, SysOp.tickOp 1 false]).2.map (fun r => r.sequenceId)
      = List.range' 1
          (runOps { sub := initialSubState exSubData 7, credits := [(7, 2)] }
            [SysOp.tickOp 0 false, SysOp.tickOp 1 false]).2.length :=
  (c1_sequence_ids_monotonic exSubData 7 [(7, 2)]
    [SysOp.tickOp 0 false, SysOp.tickOp 1 false] 0 (initialSubState exSubData 7)
    (by decide)).1

end OpcUa
